import Mathlib

/-
  Shallow embedding of the news-aggregator frontend's cache/dedup/fetch core:
  `newsService.js` (NewsService class) and `useOptimizedNews.js` (aggregation
  hook).  JavaScript strings that may be `undefined` or `null` are modelled by
  `JStr`; machine time is a `Nat` millisecond clock passed explicitly where the
  source reads `Date.now()`.
-/

namespace NewsAgg

/-- A JavaScript value that is either `undefined`, `null`, or a string. -/
inductive JStr where
  | undef
  | null
  | str (s : String)
deriving DecidableEq

/-- Destructuring default `{ x = d } = o`: applies only when the field is
`undefined` (a `null` field keeps its `null`). -/
def jsUndefDefault (v : JStr) (d : String) : JStr :=
  match v with
  | .undef => .str d
  | x => x

/-- The `= null` destructuring defaults at the head of `fetchNews`
(`{ category = null, query = null }`): `undefined` becomes `null`. -/
def jsNullDefault (v : JStr) : JStr :=
  match v with
  | .undef => .null
  | x => x

/-- JavaScript truthiness of a string-or-nullish value: `undefined`, `null`
and the empty string are falsy. -/
def jsTruthy (v : JStr) : Bool :=
  match v with
  | .str s => !(s == "")
  | _ => false

/-- JavaScript `s.toLowerCase()`, character by character. -/
def jsToLower (s : String) : String :=
  ⟨s.data.map Char.toLower⟩

/-- JavaScript `s.trim()`: strip whitespace from both ends. -/
def jsTrim (s : String) : String :=
  ⟨((s.data.dropWhile Char.isWhitespace).reverse.dropWhile Char.isWhitespace).reverse⟩

/-- Model of `NewsService._mapCategoryToBackend`: fixed display-name table with a
lower-casing fallback (`categoryMap[category] || category.toLowerCase()`). -/
def _mapCategoryToBackend (category : String) : String :=
  match category with
  | "General" => "general"
  | "Technology" => "technology"
  | "Sports" => "sports"
  | "Entertainment" => "entertainment"
  | "Business" => "business"
  | "Health" => "health"
  | "Science" => "science"
  | _ => jsToLower category

/-- Model of `NewsService._generateCacheKey({ category = 'all', query = '' })`:
the destructuring defaults fire only on `undefined`; a `null` argument
reaches `.toLowerCase()` and throws a `TypeError`, modelled as `.error`. -/
def _generateCacheKey (category query : JStr) : Except String String :=
  match jsUndefDefault category "all" with
  | .str c =>
    match jsUndefDefault query "" with
    | .str q => .ok (jsToLower c ++ "-" ++ jsTrim (jsToLower q))
    | _ => .error "TypeError: query is null"
  | _ => .error "TypeError: category is null"

/-- The cache key computed inside `fetchNews`: its own `= null` parameter
defaults are applied first, then `_generateCacheKey` is called. -/
def fetchNewsKey (category query : JStr) : Except String String :=
  _generateCacheKey (jsNullDefault category) (jsNullDefault query)

/-- The `category` query parameter appended by `_performRequest`:
`if (category && category !== 'All') params.append('category', mapped)`. -/
def categoryParam (category : JStr) : Option String :=
  match category with
  | .str c => if c ≠ "" ∧ c ≠ "All" then some (_mapCategoryToBackend c) else none
  | _ => none

/-- The `q` query parameter appended by `_performRequest`:
`if (query && query.trim()) params.append('q', query.trim())`. -/
def qParam (query : JStr) : Option String :=
  match query with
  | .str q => if q ≠ "" ∧ jsTrim q ≠ "" then some (jsTrim q) else none
  | _ => none

/-- The full query-parameter list built by `_performRequest`. -/
def buildQueryParams (category query : JStr) : List (String × String) :=
  ((categoryParam category).map (fun v => ("category", v))).toList ++
    ((qParam query).map (fun v => ("q", v))).toList

/-! ### The cache (`this.cache`, a JS `Map` keyed by cache key) -/

/-- A response payload as handled by the service: an opaque core (`α`, the
spread of the remaining fields) plus the `fromCache` flag the service
attaches. -/
structure Resp (α : Type) where
  core : α
  fromCache : Bool
deriving DecidableEq

/-- A cache entry, `{ data, timestamp }`. -/
structure CacheEntry (α : Type) where
  data : Resp α
  timestamp : Nat
deriving DecidableEq

/-- The constant `this.cacheTimeout = 15 * 60 * 1000` (15 minutes, in ms). -/
def cacheTimeout : Nat := 15 * 60 * 1000

/-- The cache `Map`, as an association list with at most one entry per key. -/
abbrev Cache (α : Type) := List (String × CacheEntry α)

/-- JS `Map.get`. -/
def cacheGet (c : Cache α) (k : String) : Option (CacheEntry α) :=
  (c.find? (fun p => p.1 == k)).map (fun p => p.2)

/-- JS `Map.delete`. -/
def cacheDelete (c : Cache α) (k : String) : Cache α :=
  c.filter (fun p => !(p.1 == k))

/-- JS `Map.set` (insert or overwrite). -/
def cacheSet (c : Cache α) (k : String) (v : CacheEntry α) : Cache α :=
  (k, v) :: cacheDelete c k

/-- Model of `NewsService._isCacheValid`: an entry is valid while
`Date.now() - entry.timestamp < this.cacheTimeout`. -/
def _isCacheValid (entry : Option (CacheEntry α)) (now : Nat) : Bool :=
  match entry with
  | none => false
  | some e => decide (now - e.timestamp < cacheTimeout)

/-- Model of `NewsService._getFromCache`: returns the payload re-tagged
`fromCache: true` when valid; otherwise deletes an expired entry and
returns `null`.  Result: the returned value and the updated cache. -/
def _getFromCache (c : Cache α) (k : String) (now : Nat) :
    Option (Resp α) × Cache α :=
  let entry := cacheGet c k
  if _isCacheValid entry now then
    (entry.map (fun e => { e.data with fromCache := true }), c)
  else
    match entry with
    | some _ => (none, cacheDelete c k)
    | none => (none, c)

/-- Model of `NewsService._setCache`: stores `{ data: {...data, fromCache:false},
timestamp: Date.now() }`. -/
def _setCache (c : Cache α) (k : String) (d : Resp α) (now : Nat) : Cache α :=
  cacheSet c k ⟨{ d with fromCache := false }, now⟩

/-- Model of `NewsService._cleanupCache`: deletes every entry with
`now - entry.timestamp >= this.cacheTimeout`. -/
def _cleanupCache (c : Cache α) (now : Nat) : Cache α :=
  c.filter (fun p => decide (now - p.2.timestamp < cacheTimeout))

/-- Model of `NewsService.isCached`: key from `_generateCacheKey` on the raw params,
then `_isCacheValid` on the entry.  (A `null` param would throw; that case
yields `false` here and is never exercised by the claims below.) -/
def isCached (c : Cache α) (category query : JStr) (now : Nat) : Bool :=
  match _generateCacheKey category query with
  | .ok k => _isCacheValid (cacheGet c k) now
  | .error _ => false

/-! ### The service as a small-step system

`fetchNews` interleaves with promise settlement on the single JS thread.
A `call` event runs the synchronous prefix of `fetchNews` (cleanup, key
derivation, cache check, in-flight check, and — when a new request is
started — the `_performRequest` invocation and registration).  A `settle`
event runs everything after `await requestPromise` in the initiating call
(conditional cache write, `finally` deregistration) and delivers the
outcome to every caller awaiting that promise. -/

deriving instance DecidableEq for Except

/-- Service state: the cache, the `ongoingRequests` map (key ↦ promise id),
the pending started requests (promise id, key, the initiating call's
`useCache`), the callers awaiting each promise, the results delivered to
callers so far, a fresh promise-id counter, and the number of
`_performRequest` invocations. -/
structure SvcState (α : Type) where
  cache : Cache α
  ongoing : List (String × Nat)
  pending : List (Nat × String × Bool)
  waiting : List (Nat × Nat)
  delivered : List (Nat × Except String (Resp α))
  nextId : Nat
  performCount : Nat
deriving DecidableEq

/-- Lookup `this.ongoingRequests.get(key)` / `.has(key)`. -/
def lookupOngoing (l : List (String × Nat)) (k : String) : Option Nat :=
  (l.find? (fun p => p.1 == k)).map (fun p => p.2)

/-- One `fetchNews(...)` invocation by caller `callerId`, up to its first
suspension point (or up to its synchronous return). -/
def beginFetch (s : SvcState α) (callerId : Nat) (category query : JStr)
    (useCache : Bool) (now : Nat) : SvcState α :=
  let s := { s with cache := _cleanupCache s.cache now }
  match fetchNewsKey category query with
  | .error m => { s with delivered := (callerId, .error m) :: s.delivered }
  | .ok key =>
    let read := if useCache then _getFromCache s.cache key now else (none, s.cache)
    match read with
    | (some v, c) => { s with cache := c, delivered := (callerId, .ok v) :: s.delivered }
    | (none, c) =>
      let s := { s with cache := c }
      match lookupOngoing s.ongoing key with
      | some pid => { s with waiting := (callerId, pid) :: s.waiting }
      | none =>
        let pid := s.nextId
        { s with
            ongoing := (key, pid) :: s.ongoing
            pending := (pid, key, useCache) :: s.pending
            waiting := (callerId, pid) :: s.waiting
            nextId := pid + 1
            performCount := s.performCount + 1 }

/-- Settlement of promise `pid` with `outcome`: the initiating call caches a
successful result iff its own `useCache` was true, the `finally` block
removes the in-flight registration, and every caller awaiting `pid`
receives `outcome` unchanged. -/
def settlePromise (s : SvcState α) (pid : Nat) (outcome : Except String (Resp α))
    (now : Nat) : SvcState α :=
  match s.pending.find? (fun p => p.1 == pid) with
  | none => s
  | some (_, key, uc) =>
    let cache :=
      match outcome with
      | .ok v => if uc then _setCache s.cache key v now else s.cache
      | .error _ => s.cache
    { s with
        cache := cache
        ongoing := s.ongoing.filter (fun p => !(p.1 == key))
        pending := s.pending.filter (fun p => !(p.1 == pid))
        waiting := s.waiting.filter (fun w => !(w.2 == pid))
        delivered :=
          (s.waiting.filter (fun w => w.2 == pid)).map (fun w => (w.1, outcome))
            ++ s.delivered }

/-- An event on the service's single thread. -/
inductive SvcEvent (α : Type) where
  | call (callerId : Nat) (category query : JStr) (useCache : Bool) (now : Nat)
  | settle (pid : Nat) (outcome : Except String (Resp α)) (now : Nat)

/-- One step. -/
def svcStep (s : SvcState α) (e : SvcEvent α) : SvcState α :=
  match e with
  | .call cid c q uc now => beginFetch s cid c q uc now
  | .settle pid outcome now => settlePromise s pid outcome now

/-- Run a sequence of events. -/
def svcRun (s : SvcState α) (es : List (SvcEvent α)) : SvcState α :=
  es.foldl svcStep s

/-! ### Aggregation-hook error classification and backoff -/

/-- The five error kinds produced by the hook's `getErrorType`. -/
inductive ErrorKind where
  | RATE_LIMIT
  | AUTH_ERROR
  | SERVER_ERROR
  | NETWORK_ERROR
  | UNKNOWN_ERROR
deriving DecidableEq

/-- JavaScript `hay.includes(needle)`: substring containment. -/
def jsIncludes (hay needle : String) : Bool :=
  decide (needle.data <:+: hay.data)

/-- Model of the hook's `getErrorType`: classify an error message by
substring tests, in source order. -/
def getErrorType (msg : String) : ErrorKind :=
  if jsIncludes msg "Rate limit exceeded" || jsIncludes msg "429" then .RATE_LIMIT
  else if jsIncludes msg "authentication failed" || jsIncludes msg "401" then .AUTH_ERROR
  else if jsIncludes msg "temporarily unavailable" || jsIncludes msg "500" then .SERVER_ERROR
  else if jsIncludes msg "Unable to connect" || jsIncludes msg "fetch" then .NETWORK_ERROR
  else .UNKNOWN_ERROR

/-- The delay (ms) scheduled by `handleRetry` before re-issuing the fetch,
as a function of the current `errorType` state and the incremented retry
count `newRetryCount`; the non-backoff branch retries immediately (delay 0). -/
def retryDelay (errorType : Option ErrorKind) (newRetryCount : Nat) : Nat :=
  if errorType = some .RATE_LIMIT ∧ newRetryCount > 1 then
    min (1000 * 2 ^ (newRetryCount - 1)) 30000
  else 0

/-! ### The aggregation hook (`useOptimizedNews`) as a small-step system

One hook-level `fetchNews(category, query, isRetry)` invocation is split at
its `await`: `issueFetch` is the synchronous prefix (optional cached-data
display, flag setting, `lastFetchParams.current = params`); `settleSuccess`
and `settleFailure` are the code after the `await` (including the
`finally`).  Each invocation creates a fresh `params` object; reference
identity of that object is modelled by a per-call id `cid`.  The closure's
`articles` binding (refreshed whenever `articles.length` changes) is
modelled by recording, at issue time, the length the call observes. -/

/-- Aggregation-hook visible state. -/
structure HookState (α : Type) where
  articles : List α
  error : Option String
  errorType : Option ErrorKind
  loading : Bool
  isRetrying : Bool
  retryCount : Nat
  lastFetch : Option (Nat × String × String)
deriving DecidableEq

/-- One hook-level `fetchNews` invocation: the identity of its `params`
object (`cid`), its arguments, and the `articles.length` its closure
observes. -/
structure HCall where
  cid : Nat
  category : String
  query : String
  isRetry : Bool
  capturedLen : Nat
deriving DecidableEq

/-- Synchronous prefix of the hook's `fetchNews`.  `cached` is the value of
`getCachedDataIfAvailable(category, query)` (the store's synchronous
inspection), passed in as an oracle. -/
def issueFetch (s : HookState α) (cid : Nat) (category query : String)
    (isRetry : Bool) (cached : Option (List α)) : HookState α × HCall :=
  let call : HCall := ⟨cid, category, query, isRetry, s.articles.length⟩
  let s :=
    match cached, isRetry with
    | some arts, false =>
      { s with articles := arts, loading := false, error := none, errorType := none }
    | _, _ => s
  let s :=
    if isRetry then { s with isRetrying := true }
    else if cached.isNone then { s with loading := true }
    else s
  ({ s with error := none, errorType := none,
            lastFetch := some (cid, category, query) }, call)

/-- The test `lastFetchParams.current === params`: reference identity of the call's
`params` object. -/
def refMatch (s : HookState α) (call : HCall) : Bool :=
  decide (s.lastFetch = some (call.cid, call.category, call.query))

/-- The `catch`/`finally` guard: `lastFetchParams.current &&
lastFetchParams.current.category === category &&
lastFetchParams.current.query === query`. -/
def valMatch (s : HookState α) (call : HCall) : Bool :=
  match s.lastFetch with
  | some (_, c, q) => decide (c = call.category) && decide (q = call.query)
  | none => false

/-- Code after a successful `await`: the staleness-guarded state update,
then the `finally` block. -/
def settleSuccess (s : HookState α) (call : HCall) (arts : List α) : HookState α :=
  let s :=
    if refMatch s call then { s with articles := arts, retryCount := 0 } else s
  if valMatch s call then { s with loading := false, isRetrying := false } else s

/-- Code in the `catch` block (guarded by `valMatch`), then the `finally`
block.  The articles-clearing test reads the closure's `articles`
(`!isRetry || articles.length === 0`), modelled by `call.capturedLen`. -/
def settleFailure (s : HookState α) (call : HCall) (msg : String) : HookState α :=
  let s :=
    if valMatch s call then
      let s := { s with error := some msg, errorType := some (getErrorType msg) }
      if !call.isRetry || call.capturedLen == 0 then { s with articles := [] } else s
    else s
  if valMatch s call then { s with loading := false, isRetrying := false } else s

/-- Settlement of a hook-level fetch with either outcome. -/
def settleAny (s : HookState α) (call : HCall) (outcome : Except String (List α)) :
    HookState α :=
  match outcome with
  | .ok arts => settleSuccess s call arts
  | .error msg => settleFailure s call msg

/-- The cache key produced for two string parameters (the non-throwing path
of `fetchNewsKey`). -/
def goodKey (c q : String) : String :=
  jsToLower c ++ "-" ++ jsTrim (jsToLower q)

/-- A batch of `fetchNews` call events sharing the same `(category, query)`
string parameters; each element is (caller id, `useCache`, clock value). -/
def sameCalls (α : Type) (c q : String) (l : List (Nat × Bool × Nat)) :
    List (SvcEvent α) :=
  l.map (fun t => .call t.1 (.str c) (.str q) t.2.1 t.2.2)

/-! ## Theorems -/

set_option maxRecDepth 20000

/-- Counterexample to claim C1 as stated: the second consecutive rate-limit
retry is delayed by 2000 ms, not the claimed 1000 ms
(`min(1000 * 2^(2-1), 30000) = 2000`). -/
theorem retryDelay_second_retry_is_2000 :
    retryDelay (some .RATE_LIMIT) 2 = 2000 ∧
    ¬ retryDelay (some .RATE_LIMIT) 2 = 1000 := by
  decide

/-- Claim C1 (amended): for consecutive rate-limit retries numbered
1,2,3,4,5, the delay computed by `handleRetry` is 0, 2000, 4000, 8000,
16000 ms respectively, and is 30000 ms for every retry number from 6 on. -/
theorem retryDelay_schedule :
    retryDelay (some .RATE_LIMIT) 1 = 0 ∧
    retryDelay (some .RATE_LIMIT) 2 = 2000 ∧
    retryDelay (some .RATE_LIMIT) 3 = 4000 ∧
    retryDelay (some .RATE_LIMIT) 4 = 8000 ∧
    retryDelay (some .RATE_LIMIT) 5 = 16000 ∧
    ∀ n, 6 ≤ n → retryDelay (some .RATE_LIMIT) n = 30000 := by
  refine ⟨by decide, by decide, by decide, by decide, by decide, ?_⟩
  intro n hn
  unfold retryDelay
  rw [if_pos ⟨rfl, by omega⟩]
  have h32 : 2 ^ 5 ≤ 2 ^ (n - 1) := Nat.pow_le_pow_right (by omega) (by omega)
  have : 32000 ≤ 1000 * 2 ^ (n - 1) := by
    calc 32000 = 1000 * 2 ^ 5 := by norm_num
    _ ≤ 1000 * 2 ^ (n - 1) := Nat.mul_le_mul_left _ h32
  exact Nat.min_eq_right (by omega)

/-- Witness for claim C1's amended theorem at retry number 7. -/
theorem retryDelay_schedule_witness :
    6 ≤ 7 ∧ retryDelay (some .RATE_LIMIT) 7 = 30000 :=
  ⟨by omega, retryDelay_schedule.2.2.2.2.2 7 (by omega)⟩

/-- Claim C8: `getErrorType` returns exactly one of the five kinds (its
codomain is the five-element `ErrorKind`), decided in source priority
order: rate-limit/429 wording wins, then authentication-failure/401
wording, then unavailable/500 wording, then connect/fetch wording, else
`UNKNOWN_ERROR`. -/
theorem getErrorType_priority (m : String) :
    ((jsIncludes m "Rate limit exceeded" || jsIncludes m "429") = true →
      getErrorType m = .RATE_LIMIT) ∧
    ((jsIncludes m "Rate limit exceeded" || jsIncludes m "429") = false →
      (jsIncludes m "authentication failed" || jsIncludes m "401") = true →
      getErrorType m = .AUTH_ERROR) ∧
    ((jsIncludes m "Rate limit exceeded" || jsIncludes m "429") = false →
      (jsIncludes m "authentication failed" || jsIncludes m "401") = false →
      (jsIncludes m "temporarily unavailable" || jsIncludes m "500") = true →
      getErrorType m = .SERVER_ERROR) ∧
    ((jsIncludes m "Rate limit exceeded" || jsIncludes m "429") = false →
      (jsIncludes m "authentication failed" || jsIncludes m "401") = false →
      (jsIncludes m "temporarily unavailable" || jsIncludes m "500") = false →
      (jsIncludes m "Unable to connect" || jsIncludes m "fetch") = true →
      getErrorType m = .NETWORK_ERROR) ∧
    ((jsIncludes m "Rate limit exceeded" || jsIncludes m "429") = false →
      (jsIncludes m "authentication failed" || jsIncludes m "401") = false →
      (jsIncludes m "temporarily unavailable" || jsIncludes m "500") = false →
      (jsIncludes m "Unable to connect" || jsIncludes m "fetch") = false →
      getErrorType m = .UNKNOWN_ERROR) := by
  refine ⟨?_, ?_, ?_, ?_, ?_⟩ <;> intros <;> simp [getErrorType, *]

/-- Witness for claim C8's theorem: each branch discharged on the concrete
message the orchestrator actually produces for it. -/
theorem getErrorType_priority_witness :
    getErrorType "Rate limit exceeded. Please try again later." = .RATE_LIMIT ∧
    getErrorType "Backend API authentication failed. Please check NewsAPI configuration." = .AUTH_ERROR ∧
    getErrorType "Backend service is temporarily unavailable. Please try again later." = .SERVER_ERROR ∧
    getErrorType "Unable to connect to backend service. Please check if the backend is running." = .NETWORK_ERROR ∧
    getErrorType "something odd happened" = .UNKNOWN_ERROR :=
  ⟨(getErrorType_priority _).1 (by decide),
   (getErrorType_priority _).2.1 (by decide) (by decide),
   (getErrorType_priority _).2.2.1 (by decide) (by decide) (by decide),
   (getErrorType_priority _).2.2.2.1 (by decide) (by decide) (by decide) (by decide),
   (getErrorType_priority _).2.2.2.2 (by decide) (by decide) (by decide) (by decide)⟩

/-- Claim C6 (code bug): deriving the cache key inside `fetchNews` throws a
`TypeError` when both parameters are absent — `fetchNews`'s own defaults
turn absent into `null`, and `_generateCacheKey`'s `'all'`/`''`
destructuring defaults fire only on `undefined`, so `null.toLowerCase()`
throws.  Calling `_generateCacheKey` directly with absent fields shows the
intended `"all-"` key, and the string path normalizes as described. -/
theorem fetchNewsKey_absent_throws :
    fetchNewsKey .undef .undef = .error "TypeError: category is null" ∧
    fetchNewsKey (.str "Tech") .undef = .error "TypeError: query is null" ∧
    _generateCacheKey .undef .undef = .ok "all-" ∧
    fetchNewsKey (.str "Technology") (.str "  AI ") = .ok "technology-ai" := by
  decide

/-- Counterexample to claim C7 as stated: for the lower-case category
`"all"` — the sentinel named by the claim — the `category` parameter is
not omitted; the code's omission test is against the capitalized literal
`'All'`. -/
theorem categoryParam_all_lowercase_not_omitted :
    buildQueryParams (.str "all") .null = [("category", "all")] ∧
    ¬ categoryParam (.str "all") = none := by
  decide

/-- Claim C7 (amended): the `category` parameter is omitted exactly when
the category is absent (`null`/`undefined`), empty, or the case-sensitive
literal `"All"`, and otherwise carries the backend-mapped slug (fixed
table, lower-casing fallback); the `q` parameter is omitted exactly when
the query is absent or blank after trimming, and otherwise carries the
trimmed query. -/
theorem buildQueryParams_spec :
    (∀ c, categoryParam (.str c) =
      (if c = "" ∨ c = "All" then none else some (_mapCategoryToBackend c))) ∧
    categoryParam .null = none ∧
    categoryParam .undef = none ∧
    (∀ q, qParam (.str q) =
      (if jsTrim q = "" then none else some (jsTrim q))) ∧
    qParam .null = none ∧
    qParam .undef = none ∧
    _mapCategoryToBackend "General" = "general" ∧
    _mapCategoryToBackend "Technology" = "technology" ∧
    _mapCategoryToBackend "Sports" = "sports" ∧
    _mapCategoryToBackend "Entertainment" = "entertainment" ∧
    _mapCategoryToBackend "Business" = "business" ∧
    _mapCategoryToBackend "Health" = "health" ∧
    _mapCategoryToBackend "Science" = "science" ∧
    (∀ c, c ∉ ["General", "Technology", "Sports", "Entertainment",
               "Business", "Health", "Science"] →
      _mapCategoryToBackend c = jsToLower c) ∧
    (∀ c q, buildQueryParams c q =
      ((categoryParam c).map (fun v => ("category", v))).toList ++
        ((qParam q).map (fun v => ("q", v))).toList) := by
  refine ⟨?_, rfl, rfl, ?_, rfl, rfl, by decide, by decide, by decide,
          by decide, by decide, by decide, by decide, ?_, fun c q => rfl⟩
  · intro c
    by_cases h : c = "" ∨ c = "All"
    · rcases h with h | h <;> simp [categoryParam, h]
    · push_neg at h
      simp [categoryParam, h.1, h.2]
  · intro q
    by_cases h1 : jsTrim q = ""
    · have h0 : q = "" ∨ q ≠ "" := em _
      simp [qParam, h1]
    · have h2 : q ≠ "" := by
        intro h
        subst h
        exact h1 rfl
      simp [qParam, h1, h2]
  · intro c hc
    unfold _mapCategoryToBackend
    split <;> simp_all

/-- Witness for claim C7's amended theorem: the fallback mapping branch at
the out-of-table category `"Politics"`, plus closed instances of the
parameter characterizations. -/
theorem buildQueryParams_spec_witness :
    "Politics" ∉ ["General", "Technology", "Sports", "Entertainment",
                  "Business", "Health", "Science"] ∧
    _mapCategoryToBackend "Politics" = jsToLower "Politics" ∧
    categoryParam (.str "Technology") =
      (if "Technology" = "" ∨ "Technology" = "All" then none
       else some (_mapCategoryToBackend "Technology")) ∧
    qParam (.str "  x ") =
      (if jsTrim "  x " = "" then none else some (jsTrim "  x ")) :=
  ⟨by decide,
   buildQueryParams_spec.2.2.2.2.2.2.2.2.2.2.2.2.2.1 "Politics" (by decide),
   buildQueryParams_spec.1 "Technology",
   buildQueryParams_spec.2.2.2.1 "  x "⟩

/-- A key-based filter removes every entry for that key. -/
theorem find?_key_filter_ne {β : Type} (l : List (String × β)) (k : String) :
    (l.filter (fun p => !(p.1 == k))).find? (fun p => p.1 == k) = none := by
  rw [List.find?_eq_none]
  intro x hx
  simpa using (List.mem_filter.mp hx).2

/-- Reading a key just written returns what was written. -/
theorem cacheGet_set_self (c : Cache α) (k : String) (v : CacheEntry α) :
    cacheGet (cacheSet c k v) k = some v := by
  simp [cacheGet, cacheSet, List.find?_cons_of_pos]

/-- Reading a key just deleted returns nothing. -/
theorem cacheGet_delete_self (c : Cache α) (k : String) :
    cacheGet (cacheDelete c k) k = none := by
  unfold cacheGet cacheDelete
  rw [find?_key_filter_ne]
  rfl

/-- The cleanup sweep cannot create an entry. -/
theorem cacheGet_cleanup_of_none {c : Cache α} {k : String} (now : Nat)
    (h : cacheGet c k = none) :
    cacheGet (_cleanupCache c now) k = none := by
  unfold cacheGet _cleanupCache
  rw [Option.map_eq_none', List.find?_eq_none]
  intro x hx
  have hfind : c.find? (fun p => p.1 == k) = none := by
    unfold cacheGet at h
    exact Option.map_eq_none'.mp h
  exact List.find?_eq_none.mp hfind x (List.mem_filter.mp hx).1

/-- Claim C3: with the TTL fixed at 15 minutes (`15*60*1000` ms), a value
stored for a key at time `T` is returned by `_getFromCache` — re-tagged
`fromCache := true` and with the cache untouched — at any read time
strictly before `T + TTL`, and a read at or after `T + TTL` returns
nothing and removes the entry. -/
theorem cache_ttl (c : Cache α) (k : String) (d : Resp α) (T now : Nat) :
    cacheTimeout = 15 * 60 * 1000 ∧
    (now < T + cacheTimeout →
      _getFromCache (_setCache c k d T) k now =
        (some ⟨d.core, true⟩, _setCache c k d T)) ∧
    (T + cacheTimeout ≤ now →
      (_getFromCache (_setCache c k d T) k now).1 = none ∧
      cacheGet (_getFromCache (_setCache c k d T) k now).2 k = none) := by
  have hget : cacheGet (_setCache c k d T) k = some ⟨⟨d.core, false⟩, T⟩ :=
    cacheGet_set_self c k ⟨⟨d.core, false⟩, T⟩
  refine ⟨rfl, ?_, ?_⟩
  · intro hlt
    have hT : now - T < cacheTimeout := by
      simp only [cacheTimeout] at hlt ⊢
      omega
    have hvalid : _isCacheValid (some (⟨⟨d.core, false⟩, T⟩ : CacheEntry α)) now = true := by
      simp only [_isCacheValid, decide_eq_true_eq]
      exact hT
    simp [_getFromCache, hget, hvalid]
  · intro hge
    have hT : ¬ (now - T < cacheTimeout) := by
      simp only [cacheTimeout] at hge ⊢
      omega
    have hvalid : _isCacheValid (some (⟨⟨d.core, false⟩, T⟩ : CacheEntry α)) now = false := by
      simp only [_isCacheValid, decide_eq_false_iff_not]
      exact hT
    have hdel := cacheGet_delete_self (_setCache c k d T) k
    constructor
    · simp [_getFromCache, hget, hvalid]
    · simp [_getFromCache, hget, hvalid, hdel]

/-- Witness for claim C3's theorem: a concrete entry stored at time 0 is
returned (tagged `fromCache := true`) when read at time 10, and gone when
read at time `900000`. -/
theorem cache_ttl_witness :
    (10 : Nat) < 0 + cacheTimeout ∧
    _getFromCache (_setCache ([] : Cache Nat) "all-" ⟨5, false⟩ 0) "all-" 10 =
      (some ⟨5, true⟩, _setCache ([] : Cache Nat) "all-" ⟨5, false⟩ 0) ∧
    0 + cacheTimeout ≤ 900000 ∧
    (_getFromCache (_setCache ([] : Cache Nat) "all-" ⟨5, false⟩ 0) "all-" 900000).1 = none ∧
    cacheGet (_getFromCache (_setCache ([] : Cache Nat) "all-" ⟨5, false⟩ 0) "all-" 900000).2 "all-" = none :=
  ⟨by decide,
   (cache_ttl ([] : Cache Nat) "all-" ⟨5, false⟩ 0 10).2.1 (by decide),
   by decide,
   ((cache_ttl ([] : Cache Nat) "all-" ⟨5, false⟩ 0 900000).2.2 (by decide)).1,
   ((cache_ttl ([] : Cache Nat) "all-" ⟨5, false⟩ 0 900000).2.2 (by decide)).2⟩

/-- Reading `_getFromCache` on an absent key returns nothing and leaves the cache. -/
theorem _getFromCache_none {c : Cache α} {k : String} (now : Nat)
    (h : cacheGet c k = none) :
    _getFromCache c k now = (none, c) := by
  simp [_getFromCache, h, _isCacheValid]

/-- The key `fetchNews` derives for two string parameters. -/
theorem fetchNewsKey_str (c q : String) :
    fetchNewsKey (.str c) (.str q) = .ok (goodKey c q) := rfl

/-- Lookup of `ongoingRequests.get` on a freshly registered key. -/
theorem lookupOngoing_cons_self (l : List (String × Nat)) (k : String) (pid : Nat) :
    lookupOngoing ((k, pid) :: l) k = some pid := by
  simp [lookupOngoing, List.find?_cons_of_pos]

/-- Lookup of `ongoingRequests.get` after the key is deleted. -/
theorem lookupOngoing_filter_self (l : List (String × Nat)) (k : String) :
    lookupOngoing (l.filter (fun p => !(p.1 == k))) k = none := by
  unfold lookupOngoing
  rw [find?_key_filter_ne]
  rfl

/-- A `fetchNews` call that misses the cache and finds an in-flight
registration for its key only sweeps the cache and joins the registered
promise: no network request, no new registration, no cache write. -/
theorem beginFetch_join (s : SvcState α) (cid : Nat) (c q : String) (uc : Bool)
    (now pid : Nat)
    (hmiss : cacheGet s.cache (goodKey c q) = none)
    (hon : lookupOngoing s.ongoing (goodKey c q) = some pid) :
    beginFetch s cid (.str c) (.str q) uc now =
      { s with cache := _cleanupCache s.cache now,
               waiting := (cid, pid) :: s.waiting } := by
  have hm2 : cacheGet (_cleanupCache s.cache now) (goodKey c q) = none :=
    cacheGet_cleanup_of_none now hmiss
  cases uc with
  | false => simp [beginFetch, fetchNewsKey_str, hon]
  | true => simp [beginFetch, fetchNewsKey_str, _getFromCache_none now hm2, hon]

/-- A `fetchNews` call that misses the cache and finds no in-flight
registration starts the network request: it registers the promise, records
it pending under its own `useCache`, and bumps the `_performRequest`
count. -/
theorem beginFetch_start (s : SvcState α) (cid : Nat) (c q : String) (uc : Bool)
    (now : Nat)
    (hmiss : cacheGet s.cache (goodKey c q) = none)
    (hon : lookupOngoing s.ongoing (goodKey c q) = none) :
    beginFetch s cid (.str c) (.str q) uc now =
      { s with cache := _cleanupCache s.cache now,
               ongoing := (goodKey c q, s.nextId) :: s.ongoing,
               pending := (s.nextId, goodKey c q, uc) :: s.pending,
               waiting := (cid, s.nextId) :: s.waiting,
               nextId := s.nextId + 1,
               performCount := s.performCount + 1 } := by
  have hm2 : cacheGet (_cleanupCache s.cache now) (goodKey c q) = none :=
    cacheGet_cleanup_of_none now hmiss
  cases uc with
  | false => simp [beginFetch, fetchNewsKey_str, hon]
  | true => simp [beginFetch, fetchNewsKey_str, _getFromCache_none now hm2, hon]

/-- Running any batch of same-key calls against a state whose key is
missing from the cache but registered in-flight: every call joins — the
registrations, pending requests, `_performRequest` count and id counter
are untouched, the key stays out of the cache, and every batched caller
ends up waiting on the registered promise. -/
theorem svcRun_joins (c q : String) (pid : Nat)
    (l : List (Nat × Bool × Nat)) :
    ∀ s : SvcState α,
      cacheGet s.cache (goodKey c q) = none →
      lookupOngoing s.ongoing (goodKey c q) = some pid →
      (svcRun s (sameCalls α c q l)).ongoing = s.ongoing ∧
      (svcRun s (sameCalls α c q l)).pending = s.pending ∧
      (svcRun s (sameCalls α c q l)).performCount = s.performCount ∧
      (svcRun s (sameCalls α c q l)).nextId = s.nextId ∧
      cacheGet (svcRun s (sameCalls α c q l)).cache (goodKey c q) = none ∧
      (∀ x, x ∈ s.waiting → x ∈ (svcRun s (sameCalls α c q l)).waiting) ∧
      (∀ t ∈ l, (t.1, pid) ∈ (svcRun s (sameCalls α c q l)).waiting) := by
  induction l with
  | nil =>
    intro s h1 h2
    exact ⟨rfl, rfl, rfl, rfl, h1, fun x hx => hx, by simp⟩
  | cons t l ih =>
    intro s h1 h2
    obtain ⟨cid, uc, tm⟩ := t
    have hstep := beginFetch_join s cid c q uc tm pid h1 h2
    have hrun : svcRun s (sameCalls α c q ((cid, uc, tm) :: l)) =
        svcRun { s with cache := _cleanupCache s.cache tm,
                        waiting := (cid, pid) :: s.waiting } (sameCalls α c q l) := by
      simp [sameCalls, svcRun, svcStep, hstep]
    have h1' : cacheGet (_cleanupCache s.cache tm) (goodKey c q) = none :=
      cacheGet_cleanup_of_none tm h1
    obtain ⟨o, p, pc, ni, cg, wsub, wmem⟩ :=
      ih { s with cache := _cleanupCache s.cache tm,
                  waiting := (cid, pid) :: s.waiting } h1' h2
    rw [hrun]
    refine ⟨o, p, pc, ni, cg, ?_, ?_⟩
    · intro x hx
      exact wsub x (List.mem_cons_of_mem _ hx)
    · intro u hu
      rcases List.mem_cons.mp hu with rfl | hu
      · exact wsub _ (List.mem_cons_self _ _)
      · exact wmem u hu

/-- Unfolding `settlePromise` when the promise is pending under `(key, uc)`. -/
theorem settlePromise_found (s : SvcState α) (pid : Nat) (key : String)
    (uc : Bool) (outcome : Except String (Resp α)) (now : Nat)
    (hp : s.pending.find? (fun p => p.1 == pid) = some (pid, key, uc)) :
    settlePromise s pid outcome now =
      { s with
          cache :=
            match outcome with
            | .ok v => if uc then _setCache s.cache key v now else s.cache
            | .error _ => s.cache,
          ongoing := s.ongoing.filter (fun p => !(p.1 == key)),
          pending := s.pending.filter (fun p => !(p.1 == pid)),
          waiting := s.waiting.filter (fun w => !(w.2 == pid)),
          delivered :=
            (s.waiting.filter (fun w => w.2 == pid)).map (fun w => (w.1, outcome))
              ++ s.delivered } := by
  simp [settlePromise, hp]

/-- Helper: the head call of a same-key batch starts the one network
request and every further call in the batch joins it. -/
theorem svcRun_call_batch (s0 : SvcState α) (c q : String)
    (cid0 : Nat) (uc0 : Bool) (now0 : Nat) (rest : List (Nat × Bool × Nat))
    (s1 : SvcState α)
    (hmiss : cacheGet s0.cache (goodKey c q) = none)
    (hon : lookupOngoing s0.ongoing (goodKey c q) = none)
    (hs1 : s1 = svcRun s0
      (SvcEvent.call cid0 (.str c) (.str q) uc0 now0 :: sameCalls α c q rest)) :
    s1.performCount = s0.performCount + 1 ∧
    s1.ongoing = (goodKey c q, s0.nextId) :: s0.ongoing ∧
    s1.pending = (s0.nextId, goodKey c q, uc0) :: s0.pending ∧
    cacheGet s1.cache (goodKey c q) = none ∧
    (cid0, s0.nextId) ∈ s1.waiting ∧
    (∀ t ∈ rest, (t.1, s0.nextId) ∈ s1.waiting) := by
  have hstart := beginFetch_start s0 cid0 c q uc0 now0 hmiss hon
  have hs1' : s1 =
      svcRun { s0 with cache := _cleanupCache s0.cache now0,
                       ongoing := (goodKey c q, s0.nextId) :: s0.ongoing,
                       pending := (s0.nextId, goodKey c q, uc0) :: s0.pending,
                       waiting := (cid0, s0.nextId) :: s0.waiting,
                       nextId := s0.nextId + 1,
                       performCount := s0.performCount + 1 }
        (sameCalls α c q rest) := by
    rw [hs1]
    simp [svcRun, svcStep, hstart]
  obtain ⟨o, p, pc, ni, cg, wsub, wmem⟩ :=
    svcRun_joins c q s0.nextId rest
      { s0 with cache := _cleanupCache s0.cache now0,
                ongoing := (goodKey c q, s0.nextId) :: s0.ongoing,
                pending := (s0.nextId, goodKey c q, uc0) :: s0.pending,
                waiting := (cid0, s0.nextId) :: s0.waiting,
                nextId := s0.nextId + 1,
                performCount := s0.performCount + 1 }
      (cacheGet_cleanup_of_none now0 hmiss)
      (lookupOngoing_cons_self _ _ _)
  rw [← hs1'] at o p pc ni cg wsub wmem
  exact ⟨pc, o, p, cg, wsub _ (List.mem_cons_self _ _), fun t ht => wmem t ht⟩

/-- Helper: settling a promise that is pending delivers the outcome
unchanged to every waiting caller and removes the key's registration. -/
theorem settlePromise_delivers (s : SvcState α) (pid : Nat) (key : String)
    (uc : Bool) (outcome : Except String (Resp α)) (now : Nat)
    (hp : s.pending.find? (fun p => p.1 == pid) = some (pid, key, uc)) :
    (∀ x : Nat × Nat, x ∈ s.waiting → x.2 = pid →
      (x.1, outcome) ∈ (settlePromise s pid outcome now).delivered) ∧
    lookupOngoing (settlePromise s pid outcome now).ongoing key = none := by
  rw [settlePromise_found s pid key uc outcome now hp]
  constructor
  · intro x hx h2
    refine List.mem_append_left _ ?_
    exact List.mem_map.mpr ⟨x, List.mem_filter.mpr ⟨hx, by simp [h2]⟩, rfl⟩
  · exact lookupOngoing_filter_self _ _

/-- Claim C2: starting from any state whose key `goodKey c q` has no cache
entry and no in-flight registration, a batch of concurrent `fetchNews`
calls with identical `(category, query)` — the head call plus any list of
further calls issued before settlement — performs exactly one
`_performRequest`; while the request is in flight the key is registered to
the one started promise, every batched caller awaits that same promise,
and when that promise settles every caller is delivered the identical
outcome (value or error) and the registration is removed. -/
theorem fetchNews_dedup (s0 : SvcState α) (c q : String)
    (cid0 : Nat) (uc0 : Bool) (now0 : Nat) (rest : List (Nat × Bool × Nat))
    (outcome : Except String (Resp α)) (nowS : Nat) (s1 s2 : SvcState α)
    (hmiss : cacheGet s0.cache (goodKey c q) = none)
    (hon : lookupOngoing s0.ongoing (goodKey c q) = none)
    (hs1 : s1 = svcRun s0
      (SvcEvent.call cid0 (.str c) (.str q) uc0 now0 :: sameCalls α c q rest))
    (hs2 : s2 = settlePromise s1 s0.nextId outcome nowS) :
    s1.performCount = s0.performCount + 1 ∧
    lookupOngoing s1.ongoing (goodKey c q) = some s0.nextId ∧
    (cid0, s0.nextId) ∈ s1.waiting ∧
    (∀ t ∈ rest, (t.1, s0.nextId) ∈ s1.waiting) ∧
    (cid0, outcome) ∈ s2.delivered ∧
    (∀ t ∈ rest, (t.1, outcome) ∈ s2.delivered) ∧
    lookupOngoing s2.ongoing (goodKey c q) = none := by
  obtain ⟨hpc, hong, hpend, hcg, hw0, hwrest⟩ :=
    svcRun_call_batch s0 c q cid0 uc0 now0 rest s1 hmiss hon hs1
  have hfind : s1.pending.find? (fun x => x.1 == s0.nextId) =
      some (s0.nextId, goodKey c q, uc0) := by
    rw [hpend]
    simp [List.find?_cons_of_pos]
  obtain ⟨hdel, hfree⟩ :=
    settlePromise_delivers s1 s0.nextId (goodKey c q) uc0 outcome nowS hfind
  rw [← hs2] at hdel hfree
  refine ⟨hpc, ?_, hw0, hwrest, hdel _ hw0 rfl,
    fun t ht => hdel _ (hwrest t ht) rfl, hfree⟩
  rw [hong]
  exact lookupOngoing_cons_self _ _ _

/-- Witness for claim C2's theorem: three concurrent callers for
`(Technology, x)` from the empty state, settled successfully. -/
theorem fetchNews_dedup_witness :
    (svcRun (⟨[], [], [], [], [], 0, 0⟩ : SvcState Nat)
        (SvcEvent.call 1 (.str "Technology") (.str "x") true 0 ::
          sameCalls Nat "Technology" "x" [(2, true, 1), (3, false, 2)])).performCount
      = (⟨[], [], [], [], [], 0, 0⟩ : SvcState Nat).performCount + 1 ∧
    lookupOngoing (svcRun (⟨[], [], [], [], [], 0, 0⟩ : SvcState Nat)
        (SvcEvent.call 1 (.str "Technology") (.str "x") true 0 ::
          sameCalls Nat "Technology" "x" [(2, true, 1), (3, false, 2)])).ongoing
        (goodKey "Technology" "x") = some 0 ∧
    (1, 0) ∈ (svcRun (⟨[], [], [], [], [], 0, 0⟩ : SvcState Nat)
        (SvcEvent.call 1 (.str "Technology") (.str "x") true 0 ::
          sameCalls Nat "Technology" "x" [(2, true, 1), (3, false, 2)])).waiting ∧
    (∀ t ∈ [(2, true, 1), (3, false, 2)],
      (t.1, 0) ∈ (svcRun (⟨[], [], [], [], [], 0, 0⟩ : SvcState Nat)
        (SvcEvent.call 1 (.str "Technology") (.str "x") true 0 ::
          sameCalls Nat "Technology" "x" [(2, true, 1), (3, false, 2)])).waiting) ∧
    (1, (Except.ok ⟨7, false⟩ : Except String (Resp Nat))) ∈
      (settlePromise (svcRun (⟨[], [], [], [], [], 0, 0⟩ : SvcState Nat)
        (SvcEvent.call 1 (.str "Technology") (.str "x") true 0 ::
          sameCalls Nat "Technology" "x" [(2, true, 1), (3, false, 2)]))
        0 (Except.ok ⟨7, false⟩) 3).delivered ∧
    (∀ t ∈ [(2, true, 1), (3, false, 2)],
      (t.1, (Except.ok ⟨7, false⟩ : Except String (Resp Nat))) ∈
        (settlePromise (svcRun (⟨[], [], [], [], [], 0, 0⟩ : SvcState Nat)
          (SvcEvent.call 1 (.str "Technology") (.str "x") true 0 ::
            sameCalls Nat "Technology" "x" [(2, true, 1), (3, false, 2)]))
          0 (Except.ok ⟨7, false⟩) 3).delivered) ∧
    lookupOngoing (settlePromise (svcRun (⟨[], [], [], [], [], 0, 0⟩ : SvcState Nat)
        (SvcEvent.call 1 (.str "Technology") (.str "x") true 0 ::
          sameCalls Nat "Technology" "x" [(2, true, 1), (3, false, 2)]))
        0 (Except.ok ⟨7, false⟩) 3).ongoing (goodKey "Technology" "x") = none :=
  fetchNews_dedup (⟨[], [], [], [], [], 0, 0⟩ : SvcState Nat) "Technology" "x"
    1 true 0 [(2, true, 1), (3, false, 2)] (Except.ok ⟨7, false⟩) 3
    (svcRun (⟨[], [], [], [], [], 0, 0⟩ : SvcState Nat)
      (SvcEvent.call 1 (.str "Technology") (.str "x") true 0 ::
        sameCalls Nat "Technology" "x" [(2, true, 1), (3, false, 2)]))
    (settlePromise (svcRun (⟨[], [], [], [], [], 0, 0⟩ : SvcState Nat)
        (SvcEvent.call 1 (.str "Technology") (.str "x") true 0 ::
          sameCalls Nat "Technology" "x" [(2, true, 1), (3, false, 2)]))
      0 (Except.ok ⟨7, false⟩) 3)
    (by decide) (by decide) rfl rfl

/-- Counterexample to claim C4 as stated: a `fetchNews` call with
`useCache:false` over a pre-existing valid cache entry for its key starts
a network request without consulting the cache; when that request fails,
the old entry is still present and valid (`isCached` is true), so "no
cache entry exists for that key after a failed fetch" is false. -/
theorem failed_fetch_can_leave_prior_entry :
    isCached
      (svcRun (⟨[("technology-x", ⟨⟨9, false⟩, 0⟩)], [], [], [], [], 0, 0⟩ : SvcState Nat)
        [.call 1 (.str "Technology") (.str "x") false 5,
         .settle 0 (.error "boom") 6]).cache
      (.str "Technology") (.str "x") 7 = true ∧
    cacheGet
      (svcRun (⟨[("technology-x", ⟨⟨9, false⟩, 0⟩)], [], [], [], [], 0, 0⟩ : SvcState Nat)
        [.call 1 (.str "Technology") (.str "x") false 5,
         .settle 0 (.error "boom") 6]).cache "technology-x" = some ⟨⟨9, false⟩, 0⟩ ∧
    (svcRun (⟨[("technology-x", ⟨⟨9, false⟩, 0⟩)], [], [], [], [], 0, 0⟩ : SvcState Nat)
        [.call 1 (.str "Technology") (.str "x") false 5,
         .settle 0 (.error "boom") 6]).performCount = 1 := by
  decide

/-- Claim C4 (amended): when the failing request's key had no cache entry
at call time — in particular in every run where the cache was consulted
and missed — a failed fetch leaves no cache entry for the key (the
failure is never written to the cache), removes the in-flight
registration, delivers the error unchanged to the initiating caller and
to every caller that joined the in-flight request, and a subsequent call
with the same key starts a new network request rather than joining a dead
slot. -/
theorem failed_fetch_not_cached (s0 : SvcState α) (c q : String)
    (cid0 : Nat) (uc0 : Bool) (now0 : Nat) (rest : List (Nat × Bool × Nat))
    (e : String) (nowS : Nat) (cid2 : Nat) (uc2 : Bool) (now2 : Nat)
    (s1 s2 : SvcState α)
    (hmiss : cacheGet s0.cache (goodKey c q) = none)
    (hon : lookupOngoing s0.ongoing (goodKey c q) = none)
    (hs1 : s1 = svcRun s0
      (SvcEvent.call cid0 (.str c) (.str q) uc0 now0 :: sameCalls α c q rest))
    (hs2 : s2 = settlePromise s1 s0.nextId (.error e) nowS) :
    cacheGet s2.cache (goodKey c q) = none ∧
    lookupOngoing s2.ongoing (goodKey c q) = none ∧
    (cid0, (Except.error e : Except String (Resp α))) ∈ s2.delivered ∧
    (∀ t ∈ rest, (t.1, (Except.error e : Except String (Resp α))) ∈ s2.delivered) ∧
    (beginFetch s2 cid2 (.str c) (.str q) uc2 now2).performCount
      = s2.performCount + 1 := by
  obtain ⟨hpc, hong, hpend, hcg, hw0, hwrest⟩ :=
    svcRun_call_batch s0 c q cid0 uc0 now0 rest s1 hmiss hon hs1
  have hfind : s1.pending.find? (fun x => x.1 == s0.nextId) =
      some (s0.nextId, goodKey c q, uc0) := by
    rw [hpend]
    simp [List.find?_cons_of_pos]
  obtain ⟨hdel, hfree⟩ :=
    settlePromise_delivers s1 s0.nextId (goodKey c q) uc0 (.error e) nowS hfind
  rw [← hs2] at hdel hfree
  have hsettle := settlePromise_found s1 s0.nextId (goodKey c q) uc0 (.error e) nowS hfind
  have hc2 : cacheGet s2.cache (goodKey c q) = none := by
    rw [hs2, hsettle]
    exact hcg
  refine ⟨hc2, hfree, hdel _ hw0 rfl, fun t ht => hdel _ (hwrest t ht) rfl, ?_⟩
  rw [beginFetch_start s2 cid2 c q uc2 now2 hc2 hfree]

/-- Witness for claim C4's amended theorem: two concurrent callers from
the empty state, a failed settlement, then a third call that starts a
fresh network request. -/
theorem failed_fetch_not_cached_witness :
    cacheGet (settlePromise (svcRun (⟨[], [], [], [], [], 0, 0⟩ : SvcState Nat)
        (SvcEvent.call 1 (.str "Technology") (.str "x") true 0 ::
          sameCalls Nat "Technology" "x" [(2, true, 1)]))
        0 (.error "boom") 2).cache (goodKey "Technology" "x") = none ∧
    lookupOngoing (settlePromise (svcRun (⟨[], [], [], [], [], 0, 0⟩ : SvcState Nat)
        (SvcEvent.call 1 (.str "Technology") (.str "x") true 0 ::
          sameCalls Nat "Technology" "x" [(2, true, 1)]))
        0 (.error "boom") 2).ongoing (goodKey "Technology" "x") = none ∧
    (1, (Except.error "boom" : Except String (Resp Nat))) ∈
      (settlePromise (svcRun (⟨[], [], [], [], [], 0, 0⟩ : SvcState Nat)
        (SvcEvent.call 1 (.str "Technology") (.str "x") true 0 ::
          sameCalls Nat "Technology" "x" [(2, true, 1)]))
        0 (.error "boom") 2).delivered ∧
    (∀ t ∈ [(2, true, 1)],
      (t.1, (Except.error "boom" : Except String (Resp Nat))) ∈
        (settlePromise (svcRun (⟨[], [], [], [], [], 0, 0⟩ : SvcState Nat)
          (SvcEvent.call 1 (.str "Technology") (.str "x") true 0 ::
            sameCalls Nat "Technology" "x" [(2, true, 1)]))
          0 (.error "boom") 2).delivered) ∧
    (beginFetch (settlePromise (svcRun (⟨[], [], [], [], [], 0, 0⟩ : SvcState Nat)
        (SvcEvent.call 1 (.str "Technology") (.str "x") true 0 ::
          sameCalls Nat "Technology" "x" [(2, true, 1)]))
        0 (.error "boom") 2) 3 (.str "Technology") (.str "x") true 9).performCount
      = (settlePromise (svcRun (⟨[], [], [], [], [], 0, 0⟩ : SvcState Nat)
        (SvcEvent.call 1 (.str "Technology") (.str "x") true 0 ::
          sameCalls Nat "Technology" "x" [(2, true, 1)]))
        0 (.error "boom") 2).performCount + 1 :=
  failed_fetch_not_cached (⟨[], [], [], [], [], 0, 0⟩ : SvcState Nat) "Technology" "x"
    1 true 0 [(2, true, 1)] "boom" 2 3 true 9
    (svcRun (⟨[], [], [], [], [], 0, 0⟩ : SvcState Nat)
      (SvcEvent.call 1 (.str "Technology") (.str "x") true 0 ::
        sameCalls Nat "Technology" "x" [(2, true, 1)]))
    (settlePromise (svcRun (⟨[], [], [], [], [], 0, 0⟩ : SvcState Nat)
        (SvcEvent.call 1 (.str "Technology") (.str "x") true 0 ::
          sameCalls Nat "Technology" "x" [(2, true, 1)]))
      0 (.error "boom") 2)
    (by decide) (by decide) rfl rfl

/-- Claim C10: only the call that initiated a network request ever writes
its successful result to the cache, under its own `useCache`.  Concretely:
a joining call changes nothing but the swept cache and the waiting set (in
particular it writes no cache entry), and when the initiator ran with
`useCache:false`, a joiner with `useCache:true` still gets the shared
result while nothing is written to the cache for the key. -/
theorem joiner_never_caches (s0 : SvcState α) (c q : String) (v : Resp α)
    (now0 now1 nowS : Nat) (s1 s1' s2 : SvcState α)
    (hmiss : cacheGet s0.cache (goodKey c q) = none)
    (hon : lookupOngoing s0.ongoing (goodKey c q) = none)
    (hs1 : s1 = beginFetch s0 1 (.str c) (.str q) false now0)
    (hs1' : s1' = beginFetch s1 2 (.str c) (.str q) true now1)
    (hs2 : s2 = settlePromise s1' s0.nextId (.ok v) nowS) :
    s1'.cache = _cleanupCache s1.cache now1 ∧
    s1'.waiting = (2, s0.nextId) :: s1.waiting ∧
    s1'.ongoing = s1.ongoing ∧
    s1'.pending = s1.pending ∧
    s1'.performCount = s0.performCount + 1 ∧
    cacheGet s2.cache (goodKey c q) = none ∧
    (1, (Except.ok v : Except String (Resp α))) ∈ s2.delivered ∧
    (2, (Except.ok v : Except String (Resp α))) ∈ s2.delivered := by
  have hstart := beginFetch_start s0 1 c q false now0 hmiss hon
  have hm1 : cacheGet s1.cache (goodKey c q) = none := by
    rw [hs1, hstart]
    exact cacheGet_cleanup_of_none now0 hmiss
  have hon1 : lookupOngoing s1.ongoing (goodKey c q) = some s0.nextId := by
    rw [hs1, hstart]
    exact lookupOngoing_cons_self _ _ _
  have hjoin := beginFetch_join s1 2 c q true now1 s0.nextId hm1 hon1
  have hm1' : cacheGet s1'.cache (goodKey c q) = none := by
    rw [hs1', hjoin]
    exact cacheGet_cleanup_of_none now1 hm1
  have hpend : s1'.pending.find? (fun x => x.1 == s0.nextId) =
      some (s0.nextId, goodKey c q, false) := by
    rw [hs1', hjoin, hs1, hstart]
    simp [List.find?_cons_of_pos]
  have hsettle := settlePromise_found s1' s0.nextId (goodKey c q) false (.ok v) nowS hpend
  have hw1 : ((1 : Nat), s0.nextId) ∈ s1'.waiting := by
    rw [hs1', hjoin, hs1, hstart]
    exact List.mem_cons_of_mem _ (List.mem_cons_self _ _)
  have hw2 : ((2 : Nat), s0.nextId) ∈ s1'.waiting := by
    rw [hs1', hjoin]
    exact List.mem_cons_self _ _
  have hdel : ∀ x : Nat × Nat, x ∈ s1'.waiting → x.2 = s0.nextId →
      (x.1, (Except.ok v : Except String (Resp α))) ∈ s2.delivered := by
    intro x hx h2
    rw [hs2, hsettle]
    refine List.mem_append_left _ ?_
    exact List.mem_map.mpr ⟨x, List.mem_filter.mpr ⟨hx, by simp [h2]⟩, rfl⟩
  refine ⟨?_, ?_, ?_, ?_, ?_, ?_, hdel _ hw1 rfl, hdel _ hw2 rfl⟩
  · rw [hs1', hjoin]
  · rw [hs1', hjoin]
  · rw [hs1', hjoin]
  · rw [hs1', hjoin]
  · rw [hs1', hjoin, hs1, hstart]
  · rw [hs2, hsettle]
    exact hm1'

/-- Witness for claim C10's theorem on the empty starting state. -/
theorem joiner_never_caches_witness :
    (beginFetch (beginFetch (⟨[], [], [], [], [], 0, 0⟩ : SvcState Nat)
        1 (.str "Technology") (.str "x") false 0) 2 (.str "Technology") (.str "x") true 1).cache
      = _cleanupCache (beginFetch (⟨[], [], [], [], [], 0, 0⟩ : SvcState Nat)
        1 (.str "Technology") (.str "x") false 0).cache 1 ∧
    (beginFetch (beginFetch (⟨[], [], [], [], [], 0, 0⟩ : SvcState Nat)
        1 (.str "Technology") (.str "x") false 0) 2 (.str "Technology") (.str "x") true 1).waiting
      = (2, 0) :: (beginFetch (⟨[], [], [], [], [], 0, 0⟩ : SvcState Nat)
        1 (.str "Technology") (.str "x") false 0).waiting ∧
    (beginFetch (beginFetch (⟨[], [], [], [], [], 0, 0⟩ : SvcState Nat)
        1 (.str "Technology") (.str "x") false 0) 2 (.str "Technology") (.str "x") true 1).ongoing
      = (beginFetch (⟨[], [], [], [], [], 0, 0⟩ : SvcState Nat)
        1 (.str "Technology") (.str "x") false 0).ongoing ∧
    (beginFetch (beginFetch (⟨[], [], [], [], [], 0, 0⟩ : SvcState Nat)
        1 (.str "Technology") (.str "x") false 0) 2 (.str "Technology") (.str "x") true 1).pending
      = (beginFetch (⟨[], [], [], [], [], 0, 0⟩ : SvcState Nat)
        1 (.str "Technology") (.str "x") false 0).pending ∧
    (beginFetch (beginFetch (⟨[], [], [], [], [], 0, 0⟩ : SvcState Nat)
        1 (.str "Technology") (.str "x") false 0) 2 (.str "Technology") (.str "x") true 1).performCount
      = (⟨[], [], [], [], [], 0, 0⟩ : SvcState Nat).performCount + 1 ∧
    cacheGet (settlePromise (beginFetch (beginFetch (⟨[], [], [], [], [], 0, 0⟩ : SvcState Nat)
        1 (.str "Technology") (.str "x") false 0) 2 (.str "Technology") (.str "x") true 1)
        0 (.ok ⟨7, false⟩) 2).cache (goodKey "Technology" "x") = none ∧
    (1, (Except.ok ⟨7, false⟩ : Except String (Resp Nat))) ∈
      (settlePromise (beginFetch (beginFetch (⟨[], [], [], [], [], 0, 0⟩ : SvcState Nat)
        1 (.str "Technology") (.str "x") false 0) 2 (.str "Technology") (.str "x") true 1)
        0 (.ok ⟨7, false⟩) 2).delivered ∧
    (2, (Except.ok ⟨7, false⟩ : Except String (Resp Nat))) ∈
      (settlePromise (beginFetch (beginFetch (⟨[], [], [], [], [], 0, 0⟩ : SvcState Nat)
        1 (.str "Technology") (.str "x") false 0) 2 (.str "Technology") (.str "x") true 1)
        0 (.ok ⟨7, false⟩) 2).delivered :=
  joiner_never_caches (⟨[], [], [], [], [], 0, 0⟩ : SvcState Nat) "Technology" "x"
    ⟨7, false⟩ 0 1 2
    (beginFetch (⟨[], [], [], [], [], 0, 0⟩ : SvcState Nat)
      1 (.str "Technology") (.str "x") false 0)
    (beginFetch (beginFetch (⟨[], [], [], [], [], 0, 0⟩ : SvcState Nat)
      1 (.str "Technology") (.str "x") false 0) 2 (.str "Technology") (.str "x") true 1)
    (settlePromise (beginFetch (beginFetch (⟨[], [], [], [], [], 0, 0⟩ : SvcState Nat)
        1 (.str "Technology") (.str "x") false 0) 2 (.str "Technology") (.str "x") true 1)
      0 (.ok ⟨7, false⟩) 2)
    (by decide) (by decide) rfl rfl rfl

/-- Issuing a hook-level fetch records its own `params` object as the
latest, clears the error state, and captures the call's arguments. -/
theorem issueFetch_fields (s : HookState α) (cid : Nat) (c q : String)
    (r : Bool) (cached : Option (List α)) :
    (issueFetch s cid c q r cached).1.lastFetch = some (cid, c, q) ∧
    (issueFetch s cid c q r cached).1.error = none ∧
    (issueFetch s cid c q r cached).1.errorType = none ∧
    (issueFetch s cid c q r cached).2 = ⟨cid, c, q, r, s.articles.length⟩ := by
  rcases cached with _ | arts <;> rcases r <;> simp [issueFetch]

/-- A stale settlement — the latest-recorded request is a different
`params` object carrying different parameter values — changes nothing. -/
theorem settleAny_stale (s : HookState α) (call : HCall)
    (o : Except String (List α)) (b : Nat) (cb qb : String)
    (hl : s.lastFetch = some (b, cb, qb)) (hb : b ≠ call.cid)
    (hv : ¬(cb = call.category ∧ qb = call.query)) :
    settleAny s call o = s := by
  have href : refMatch s call = false := by
    simp only [refMatch, hl, Option.some.injEq, Prod.mk.injEq,
      decide_eq_false_iff_not]
    rintro ⟨h1, _⟩
    exact hb h1
  have hval : valMatch s call = false := by
    simp only [valMatch, hl]
    rcases Decidable.em (cb = call.category) with h1 | h1
    · rcases Decidable.em (qb = call.query) with h2 | h2
      · exact absurd ⟨h1, h2⟩ hv
      · simp [h2]
    · simp [h1]
  rcases o with m | arts
  · unfold settleAny settleFailure
    simp [hval]
  · unfold settleAny settleSuccess
    simp [href, hval]

/-- A successful settlement whose `params` object is still the latest
installs the articles, resets the retry count, and clears the loading
flags. -/
theorem settleSuccess_match (s : HookState α) (call : HCall) (arts : List α)
    (h : s.lastFetch = some (call.cid, call.category, call.query)) :
    settleSuccess s call arts =
      { s with articles := arts, retryCount := 0,
               loading := false, isRetrying := false } := by
  simp [settleSuccess, refMatch, valMatch, h]

/-- A failed settlement whose parameter values still match the latest
request records the message and its classified kind, clears the loading
flags, and clears the articles unless the call was a retry whose closure
saw a non-empty list. -/
theorem settleFailure_match (s : HookState α) (call : HCall) (msg : String)
    (b : Nat) (hl : s.lastFetch = some (b, call.category, call.query)) :
    settleFailure s call msg =
      (if !call.isRetry || call.capturedLen == 0 then
        { s with error := some msg, errorType := some (getErrorType msg),
                 articles := [], loading := false, isRetrying := false }
      else
        { s with error := some msg, errorType := some (getErrorType msg),
                 loading := false, isRetrying := false }) := by
  rcases hr : (!call.isRetry || call.capturedLen == 0) with _ | _ <;>
    simp [settleFailure, valMatch, hl, hr]

/-- Claim C5: if a hook-level fetch for parameters A is issued and then a
fetch for different parameters B is issued, then once B has been recorded
as the latest request, A's settlement — success or failure, whenever it
arrives — changes nothing, while B's own settlement installs B's outcome:
articles/reset on success, message and classified kind on failure.  Last
request wins; stale responses are discarded on arrival. -/
theorem last_request_wins (s0 : HookState α) (cidA cidB : Nat)
    (ca qa cb qb : String) (rA rB : Bool) (cachedA cachedB : Option (List α))
    (outA outB : Except String (List α))
    (sA sB s3 : HookState α) (callA callB : HCall)
    (hcid : cidA ≠ cidB) (hp : ¬(cb = ca ∧ qb = qa))
    (hsA : sA = (issueFetch s0 cidA ca qa rA cachedA).1)
    (hcallA : callA = (issueFetch s0 cidA ca qa rA cachedA).2)
    (hsB : sB = (issueFetch sA cidB cb qb rB cachedB).1)
    (hcallB : callB = (issueFetch sA cidB cb qb rB cachedB).2)
    (hs3 : s3 = settleAny sB callB outB) :
    settleAny s3 callA outA = s3 ∧
    (∀ arts, outB = .ok arts →
      s3.articles = arts ∧ s3.error = none ∧ s3.errorType = none ∧
      s3.retryCount = 0) ∧
    (∀ m, outB = .error m →
      s3.error = some m ∧ s3.errorType = some (getErrorType m)) := by
  subst hsA hcallA hsB hcallB hs3
  have hfA := issueFetch_fields s0 cidA ca qa rA cachedA
  have hfB := issueFetch_fields (issueFetch s0 cidA ca qa rA cachedA).1
    cidB cb qb rB cachedB
  have hlB : (issueFetch (issueFetch s0 cidA ca qa rA cachedA).1
      cidB cb qb rB cachedB).1.lastFetch = some (cidB, cb, qb) := hfB.1
  have hmain :
      (settleAny (issueFetch (issueFetch s0 cidA ca qa rA cachedA).1
          cidB cb qb rB cachedB).1
        (issueFetch (issueFetch s0 cidA ca qa rA cachedA).1
          cidB cb qb rB cachedB).2 outB).lastFetch = some (cidB, cb, qb) ∧
      (∀ arts, outB = .ok arts →
        (settleAny (issueFetch (issueFetch s0 cidA ca qa rA cachedA).1
            cidB cb qb rB cachedB).1
          (issueFetch (issueFetch s0 cidA ca qa rA cachedA).1
            cidB cb qb rB cachedB).2 outB).articles = arts ∧
        (settleAny (issueFetch (issueFetch s0 cidA ca qa rA cachedA).1
            cidB cb qb rB cachedB).1
          (issueFetch (issueFetch s0 cidA ca qa rA cachedA).1
            cidB cb qb rB cachedB).2 outB).error = none ∧
        (settleAny (issueFetch (issueFetch s0 cidA ca qa rA cachedA).1
            cidB cb qb rB cachedB).1
          (issueFetch (issueFetch s0 cidA ca qa rA cachedA).1
            cidB cb qb rB cachedB).2 outB).errorType = none ∧
        (settleAny (issueFetch (issueFetch s0 cidA ca qa rA cachedA).1
            cidB cb qb rB cachedB).1
          (issueFetch (issueFetch s0 cidA ca qa rA cachedA).1
            cidB cb qb rB cachedB).2 outB).retryCount = 0) ∧
      (∀ m, outB = .error m →
        (settleAny (issueFetch (issueFetch s0 cidA ca qa rA cachedA).1
            cidB cb qb rB cachedB).1
          (issueFetch (issueFetch s0 cidA ca qa rA cachedA).1
            cidB cb qb rB cachedB).2 outB).error = some m ∧
        (settleAny (issueFetch (issueFetch s0 cidA ca qa rA cachedA).1
            cidB cb qb rB cachedB).1
          (issueFetch (issueFetch s0 cidA ca qa rA cachedA).1
            cidB cb qb rB cachedB).2 outB).errorType = some (getErrorType m)) := by
    rcases outB with m | arts
    · have hsf := settleFailure_match
        (issueFetch (issueFetch s0 cidA ca qa rA cachedA).1 cidB cb qb rB cachedB).1
        (issueFetch (issueFetch s0 cidA ca qa rA cachedA).1 cidB cb qb rB cachedB).2
        m cidB (by rw [hfB.2.2.2]; exact hfB.1)
      have hgoal : settleAny
          (issueFetch (issueFetch s0 cidA ca qa rA cachedA).1 cidB cb qb rB cachedB).1
          (issueFetch (issueFetch s0 cidA ca qa rA cachedA).1 cidB cb qb rB cachedB).2
          (Except.error m) =
        settleFailure
          (issueFetch (issueFetch s0 cidA ca qa rA cachedA).1 cidB cb qb rB cachedB).1
          (issueFetch (issueFetch s0 cidA ca qa rA cachedA).1 cidB cb qb rB cachedB).2
          m := rfl
      rw [hgoal, hsf]
      rcases hr : (!(issueFetch (issueFetch s0 cidA ca qa rA cachedA).1
          cidB cb qb rB cachedB).2.isRetry ||
          (issueFetch (issueFetch s0 cidA ca qa rA cachedA).1
            cidB cb qb rB cachedB).2.capturedLen == 0) with _ | _
      · rw [if_neg (by simp [hr])]
        refine ⟨hlB, ?_, ?_⟩
        · intro arts h
          cases h
        · intro m2 h
          injection h with h2
          subst h2
          exact ⟨rfl, rfl⟩
      · rw [if_pos (by simp [hr])]
        refine ⟨hlB, ?_, ?_⟩
        · intro arts h
          cases h
        · intro m2 h
          injection h with h2
          subst h2
          exact ⟨rfl, rfl⟩
    · have hss := settleSuccess_match
        (issueFetch (issueFetch s0 cidA ca qa rA cachedA).1 cidB cb qb rB cachedB).1
        (issueFetch (issueFetch s0 cidA ca qa rA cachedA).1 cidB cb qb rB cachedB).2
        arts (by rw [hfB.2.2.2]; exact hfB.1)
      have hgoal : settleAny
          (issueFetch (issueFetch s0 cidA ca qa rA cachedA).1 cidB cb qb rB cachedB).1
          (issueFetch (issueFetch s0 cidA ca qa rA cachedA).1 cidB cb qb rB cachedB).2
          (Except.ok arts) =
        settleSuccess
          (issueFetch (issueFetch s0 cidA ca qa rA cachedA).1 cidB cb qb rB cachedB).1
          (issueFetch (issueFetch s0 cidA ca qa rA cachedA).1 cidB cb qb rB cachedB).2
          arts := rfl
      rw [hgoal, hss]
      refine ⟨hlB, ?_, ?_⟩
      · intro a h
        injection h with h2
        subst h2
        exact ⟨rfl, hfB.2.1, hfB.2.2.1, rfl⟩
      · intro m h
        cases h
  refine ⟨?_, hmain.2.1, hmain.2.2⟩
  refine settleAny_stale _ _ outA cidB cb qb hmain.1 ?_ ?_
  · rw [hfA.2.2.2]
    exact Ne.symm hcid
  · rw [hfA.2.2.2]
    exact hp

/-- Witness for claim C5's theorem: fetch A `("a","x")` then fetch B
`("c","y")`; B settles successfully, then A's late error settlement is a
no-op on the state. -/
theorem last_request_wins_witness :
    settleAny
      (settleAny
        (issueFetch (issueFetch (⟨[], none, none, true, false, 0, none⟩ : HookState Nat)
            0 "a" "x" false none).1 1 "c" "y" false none).1
        (issueFetch (issueFetch (⟨[], none, none, true, false, 0, none⟩ : HookState Nat)
            0 "a" "x" false none).1 1 "c" "y" false none).2
        (Except.ok [5]))
      (issueFetch (⟨[], none, none, true, false, 0, none⟩ : HookState Nat)
        0 "a" "x" false none).2
      (Except.error "late") =
    settleAny
      (issueFetch (issueFetch (⟨[], none, none, true, false, 0, none⟩ : HookState Nat)
          0 "a" "x" false none).1 1 "c" "y" false none).1
      (issueFetch (issueFetch (⟨[], none, none, true, false, 0, none⟩ : HookState Nat)
          0 "a" "x" false none).1 1 "c" "y" false none).2
      (Except.ok [5]) :=
  (last_request_wins (⟨[], none, none, true, false, 0, none⟩ : HookState Nat)
    0 1 "a" "x" "c" "y" false false none none
    (Except.error "late") (Except.ok [5])
    (issueFetch (⟨[], none, none, true, false, 0, none⟩ : HookState Nat)
      0 "a" "x" false none).1
    (issueFetch (issueFetch (⟨[], none, none, true, false, 0, none⟩ : HookState Nat)
        0 "a" "x" false none).1 1 "c" "y" false none).1
    (settleAny
      (issueFetch (issueFetch (⟨[], none, none, true, false, 0, none⟩ : HookState Nat)
          0 "a" "x" false none).1 1 "c" "y" false none).1
      (issueFetch (issueFetch (⟨[], none, none, true, false, 0, none⟩ : HookState Nat)
          0 "a" "x" false none).1 1 "c" "y" false none).2
      (Except.ok [5]))
    (issueFetch (⟨[], none, none, true, false, 0, none⟩ : HookState Nat)
      0 "a" "x" false none).2
    (issueFetch (issueFetch (⟨[], none, none, true, false, 0, none⟩ : HookState Nat)
        0 "a" "x" false none).1 1 "c" "y" false none).2
    (by decide) (by decide) rfl rfl rfl rfl rfl).1

/-- Claim C9: when a failing hook-level fetch still matches the latest
requested parameters, the articles list is preserved exactly when the
call was a retry and the articles it observed were non-empty; in every
other case the list is cleared to empty; the error message and its
classified kind are recorded in both cases. -/
theorem failure_frame (s : HookState α) (call : HCall) (msg : String) (b : Nat)
    (hl : s.lastFetch = some (b, call.category, call.query))
    (hcap : call.capturedLen = s.articles.length) :
    (settleFailure s call msg).error = some msg ∧
    (settleFailure s call msg).errorType = some (getErrorType msg) ∧
    (settleFailure s call msg).articles =
      (if call.isRetry = true ∧ s.articles.length ≠ 0 then s.articles else []) := by
  have hsf := settleFailure_match s call msg b hl
  rcases hri : call.isRetry with _ | _
  · have hc : (!call.isRetry || call.capturedLen == 0) = true := by simp [hri]
    rw [hsf, if_pos hc]
    refine ⟨rfl, rfl, ?_⟩
    rw [if_neg]
    rintro ⟨h1, _⟩
    cases h1
  · rcases hlen : s.articles.length with _ | n
    · have hc : (!call.isRetry || call.capturedLen == 0) = true := by
        simp [hcap, hlen]
      rw [hsf, if_pos hc]
      refine ⟨rfl, rfl, ?_⟩
      rw [if_neg]
      rintro ⟨_, h2⟩
      exact h2 rfl
    · have hc : (!call.isRetry || call.capturedLen == 0) = false := by
        simp [hri, hcap, hlen]
      rw [hsf, if_neg (by simp [hc])]
      exact ⟨rfl, rfl, (if_pos ⟨rfl, by omega⟩).symm⟩

/-- Witness for claim C9's theorem: a matching retry failure over the
non-empty list `[3, 4]` records the error and preserves the articles. -/
theorem failure_frame_witness :
    (settleFailure
        (⟨[3, 4], none, none, false, true, 1, some (5, "Technology", "a")⟩ : HookState Nat)
        ⟨5, "Technology", "a", true, 2⟩ "boom").error = some "boom" ∧
    (settleFailure
        (⟨[3, 4], none, none, false, true, 1, some (5, "Technology", "a")⟩ : HookState Nat)
        ⟨5, "Technology", "a", true, 2⟩ "boom").errorType = some (getErrorType "boom") ∧
    (settleFailure
        (⟨[3, 4], none, none, false, true, 1, some (5, "Technology", "a")⟩ : HookState Nat)
        ⟨5, "Technology", "a", true, 2⟩ "boom").articles =
      (if (⟨5, "Technology", "a", true, 2⟩ : HCall).isRetry = true ∧
          ([3, 4] : List Nat).length ≠ 0 then [3, 4] else []) :=
  failure_frame
    (⟨[3, 4], none, none, false, true, 1, some (5, "Technology", "a")⟩ : HookState Nat)
    ⟨5, "Technology", "a", true, 2⟩ "boom" 5 rfl rfl

end NewsAgg
